import Mathlib

/-!
Verification of the GodotAI editor-plugin lifecycle core
(src/core/godotai.hpp, src/core/godotai.cpp).

The plugin keeps two fields, `server_running : bool` (initially `false`)
and `server_port : int` (initially `8765`).  The operations
`start_server`, `stop_server`, `is_server_running`, and the host hooks
`_enter_tree` / `_exit_tree` are embedded below as pure state
transformers that additionally return the list of log lines printed by
`UtilityFunctions::print` during the call.
-/

namespace GodotAI

/-- The server state owned by the `GodotAI` singleton: the fields
`server_running` and `server_port` declared in godotai.hpp. -/
structure ServerState where
  server_running : Bool
  server_port : Int
deriving Repr, DecidableEq

/-- The field initializers in godotai.hpp:
`bool server_running = false; int server_port = 8765;`. -/
def initialState : ServerState :=
  { server_running := false, server_port := 8765 }

/-- Embedding of `GodotAI::start_server(int port)` (godotai.cpp).
Returns the new state together with the log lines printed. -/
def start_server (port : Int) (s : ServerState) : ServerState × List String :=
  if s.server_running then
    (s, ["GodotAI: Server already running"])
  else
    ({ s with server_port := port, server_running := true },
     ["GodotAI: Server started (stub) on port " ++ toString port])

/-- Embedding of `GodotAI::stop_server()` (godotai.cpp).  Note the
early-return branch `if (!server_running) return;` prints nothing. -/
def stop_server (s : ServerState) : ServerState × List String :=
  if !s.server_running then
    (s, [])
  else
    ({ s with server_running := false }, ["GodotAI: Server stopped"])

/-- Embedding of `GodotAI::is_server_running()` (godotai.cpp):
`return server_running;`. -/
def is_server_running (s : ServerState) : Bool :=
  s.server_running

/-- Embedding of `GodotAI::_enter_tree()` (godotai.cpp): prints an
activation line and then calls `start_server(server_port)`. -/
def enter_tree (s : ServerState) : ServerState × List String :=
  ((start_server s.server_port s).1,
   "GodotAI: Plugin loaded and activated" :: (start_server s.server_port s).2)

/-- Embedding of `GodotAI::_exit_tree()` (godotai.cpp): calls
`stop_server()` and then prints the deactivation line. -/
def exit_tree (s : ServerState) : ServerState × List String :=
  ((stop_server s).1, (stop_server s).2 ++ ["GodotAI: Plugin deactivated"])

/-- The lifecycle operations considered in traces: the two mutators
bound for scripting access. -/
inductive LifecycleOp where
  | start (port : Int)
  | stop
deriving Repr, DecidableEq

/-- Effect of one lifecycle operation on the state (logs dropped). -/
def stepOp (s : ServerState) (op : LifecycleOp) : ServerState :=
  match op with
  | .start p => (start_server p s).1
  | .stop => (stop_server s).1

/-- Run a sequence of lifecycle calls from the module-load state. -/
def runOps (ops : List LifecycleOp) : ServerState :=
  ops.foldl stepOp initialState

/-- The full API surface of the class that can touch the state: the
three bound methods plus the two host hooks. -/
inductive ApiCall where
  | startServer (port : Int)
  | stopServer
  | isServerRunning
  | enterTree
  | exitTree
deriving Repr

/-- Effect of a full API call on the state, with its log lines.
`is_server_running` is `const` and prints nothing. -/
def applyCall (c : ApiCall) (s : ServerState) : ServerState × List String :=
  match c with
  | .startServer p => start_server p s
  | .stopServer => stop_server s
  | .isServerRunning => (s, [])
  | .enterTree => enter_tree s
  | .exitTree => exit_tree s

/-- Valid TCP port range as stated by the spec (1 through 65535). -/
def validPort (p : Int) : Prop := 1 ≤ p ∧ p ≤ 65535

instance (p : Int) : Decidable (validPort p) := by
  unfold validPort; infer_instance

end GodotAI

namespace GodotAI

/-- Claim C1: calling `start_server p` while the server is already
running leaves the state completely unchanged (running stays true and
the stored port keeps its previous value, even if `p` differs), and the
only observable action is the single "already running" log line — no
bind is attempted. -/
theorem c1_start_idempotent_when_running (p : Int) (s : ServerState)
    (h : s.server_running = true) :
    start_server p s = (s, ["GodotAI: Server already running"]) := by
  simp [start_server, h]

theorem c1_witness :
    (ServerState.mk true 8765).server_running = true ∧
      start_server 9999 (ServerState.mk true 8765) =
        (ServerState.mk true 8765, ["GodotAI: Server already running"]) :=
  ⟨rfl, c1_start_idempotent_when_running 9999 (ServerState.mk true 8765) rfl⟩

/-- Claim C2 counterexample: the code performs no port validation.
Calling `start_server 0` (and `start_server 65536`) from the initial
stopped state succeeds: the state ends running with the out-of-range
port stored, contradicting the claim that such calls fail with
`InvalidArgument` and leave the state not running. -/
theorem c2_counterexample :
    (start_server 0 initialState).1.server_running = true ∧
      (start_server 0 initialState).1.server_port = 0 ∧
      (start_server 65536 initialState).1.server_running = true ∧
      (start_server 65536 initialState).1.server_port = 65536 := by
  refine ⟨?_, ?_, ?_, ?_⟩ <;> rfl

/-- Claim C2 (amended): `start_server` performs no range check on the
port.  For every integer `p` — out-of-range values such as 0 and 65536
included — calling it in a non-running state sets `running := true` and
stores `p` as the port; in particular every `p` in 1..65535 is accepted,
and no `InvalidArgument` error path exists. -/
theorem c2_start_accepts_any_port (p : Int) (s : ServerState)
    (h : s.server_running = false) :
    (start_server p s).1.server_running = true ∧
      (start_server p s).1.server_port = p := by
  simp [start_server, h]

theorem c2_witness :
    initialState.server_running = false ∧
      (start_server 0 initialState).1.server_running = true ∧
      (start_server 0 initialState).1.server_port = 0 := by
  refine ⟨rfl, ?_, ?_⟩
  · exact (c2_start_accepts_any_port 0 initialState rfl).1
  · exact (c2_start_accepts_any_port 0 initialState rfl).2

/-- Claim C3: `stop_server` in a non-running state leaves the state
unchanged (running stays false, port unchanged) and performs no teardown
action and prints nothing; consequently two consecutive stops from any
state end in exactly the state one stop reaches. -/
theorem c3_stop_idempotent_when_stopped (s : ServerState)
    (h : s.server_running = false) :
    stop_server s = (s, []) ∧
      ∀ t : ServerState, (stop_server (stop_server t).1).1 = (stop_server t).1 := by
  constructor
  · simp [stop_server, h]
  · intro t
    cases t with
    | mk r q => cases r <;> simp [stop_server]

theorem c3_witness :
    stop_server initialState = (initialState, []) ∧
      (stop_server (stop_server (ServerState.mk true 42)).1).1 =
        (stop_server (ServerState.mk true 42)).1 :=
  ⟨(c3_stop_idempotent_when_stopped initialState rfl).1,
   (c3_stop_idempotent_when_stopped initialState rfl).2 (ServerState.mk true 42)⟩

/-- Claim C4: for every valid port `p`, starting from any stopped state,
the sequence `start_server p; stop_server; start_server p` ends with
`is_server_running` true and the stored port equal to `p`. -/
theorem c4_round_trip (p : Int) (s : ServerState)
    (hp : validPort p) (h : s.server_running = false) :
    is_server_running
        (start_server p (stop_server (start_server p s).1).1).1 = true ∧
      (start_server p (stop_server (start_server p s).1).1).1.server_port = p := by
  simp [start_server, stop_server, is_server_running, h]

theorem c4_witness :
    validPort 8765 ∧
      is_server_running
          (start_server 8765
            (stop_server (start_server 8765 initialState).1).1).1 = true ∧
      (start_server 8765
          (stop_server (start_server 8765 initialState).1).1).1.server_port = 8765 :=
  ⟨by decide, (c4_round_trip 8765 initialState (by decide) rfl).1,
   (c4_round_trip 8765 initialState (by decide) rfl).2⟩

/-- Claim C5: the running flag realizes the two-state machine
Stopped → (start) → Running → (stop) → Stopped: the empty trace yields
the initial state, which is Stopped; `start` while Running is a
self-loop on the whole state; `stop` while Stopped is a self-loop on the
whole state; and every state reachable by any trace of start/stop calls
is either Stopped or Running. -/
theorem c5_state_machine :
    (runOps [] = initialState ∧ initialState.server_running = false) ∧
      (∀ (s : ServerState) (p : Int), s.server_running = true →
          stepOp s (LifecycleOp.start p) = s) ∧
      (∀ s : ServerState, s.server_running = false → stepOp s LifecycleOp.stop = s) ∧
      (∀ ops : List LifecycleOp,
          (runOps ops).server_running = false ∨ (runOps ops).server_running = true) := by
  refine ⟨⟨rfl, rfl⟩, ?_, ?_, ?_⟩
  · intro s p h
    simp [stepOp, start_server, h]
  · intro s h
    simp [stepOp, stop_server, h]
  · intro ops
    cases h : (runOps ops).server_running
    · exact Or.inl rfl
    · exact Or.inr rfl

theorem c5_witness :
    stepOp (ServerState.mk true 5) (LifecycleOp.start 9) = ServerState.mk true 5 ∧
      stepOp (ServerState.mk false 7) LifecycleOp.stop = ServerState.mk false 7 :=
  ⟨c5_state_machine.2.1 (ServerState.mk true 5) 9 rfl,
   c5_state_machine.2.2.1 (ServerState.mk false 7) rfl⟩

/-- Claim C6: the state is created with `running = false` and
`port = 8765` (the field initializers run at module load), and across
the entire API surface every call's effect on the state is either the
identity or exactly the effect of `start_server`/`stop_server`: no other
operation writes the fields. -/
theorem c6_init_and_single_writer :
    initialState.server_running = false ∧ initialState.server_port = 8765 ∧
      ∀ (c : ApiCall) (s : ServerState),
        (applyCall c s).1 = s ∨
          (∃ p : Int, (applyCall c s).1 = (start_server p s).1) ∨
          (applyCall c s).1 = (stop_server s).1 := by
  refine ⟨rfl, rfl, ?_⟩
  intro c s
  cases c with
  | startServer p => exact Or.inr (Or.inl ⟨p, rfl⟩)
  | stopServer => exact Or.inr (Or.inr rfl)
  | isServerRunning => exact Or.inl rfl
  | enterTree => exact Or.inr (Or.inl ⟨s.server_port, rfl⟩)
  | exitTree => exact Or.inr (Or.inr rfl)

/-- Claim C7 counterexample: a `stop_server` call in the stopped state
prints no log line at all — the early-return branch
`if (!server_running) return;` is silent — contradicting the claim that
the "not running" outcome is logged once. -/
theorem c7_counterexample :
    (stop_server initialState).2 = [] := by
  rfl

/-- Claim C7 (amended): every lifecycle transition logs exactly one line
at the point of decision — `start_server` logs once in both branches,
and `stop_server` logs once when running — except that `stop_server` in
the stopped state logs nothing; repeated idempotent calls therefore
produce one "already running" line per redundant start and no line for a
redundant stop. -/
theorem c7_logging (p : Int) (s : ServerState) :
    (start_server p s).2.length = 1 ∧
      (s.server_running = true → (stop_server s).2.length = 1) ∧
      (s.server_running = false → (stop_server s).2 = []) := by
  refine ⟨?_, ?_, ?_⟩
  · cases h : s.server_running <;> simp [start_server, h]
  · intro h; simp [stop_server, h]
  · intro h; simp [stop_server, h]

theorem c7_witness :
    (start_server 8765 initialState).2.length = 1 ∧
      (stop_server (ServerState.mk true 8765)).2.length = 1 ∧
      (stop_server initialState).2 = [] :=
  ⟨(c7_logging 8765 initialState).1,
   (c7_logging 8765 (ServerState.mk true 8765)).2.1 rfl,
   (c7_logging 8765 initialState).2.2 rfl⟩

/-- Claim C8: the host activation hook `_enter_tree` invokes
`start_server` with the stored port — on first activation this is
exactly `start_server 8765` — and the deactivation hook `_exit_tree`
invokes `stop_server`; in the embedded API these are the only host entry
points into the lifecycle core. -/
theorem c8_host_hooks :
    (∀ s : ServerState, (enter_tree s).1 = (start_server s.server_port s).1) ∧
      (∀ s : ServerState, (exit_tree s).1 = (stop_server s).1) ∧
      (enter_tree initialState).1 = (start_server 8765 initialState).1 ∧
      (applyCall ApiCall.enterTree = enter_tree ∧
        applyCall ApiCall.exitTree = exit_tree) := by
  exact ⟨fun s => rfl, fun s => rfl, rfl, rfl, rfl⟩

/-- Claim C9: `is_server_running` is a pure read: it returns exactly the
current value of the running flag and, as an API call, leaves every
field of the state unchanged. -/
theorem c9_is_running_pure :
    ∀ s : ServerState,
      is_server_running s = s.server_running ∧
        (applyCall ApiCall.isServerRunning s).1 = s := by
  exact fun s => ⟨rfl, rfl⟩

/-- Claim C10: `stop_server` never modifies the stored port: in both
branches the port field after the call equals the port field before, so
the port of the most recent start persists while stopped. -/
theorem c10_stop_preserves_port :
    ∀ s : ServerState, (stop_server s).1.server_port = s.server_port := by
  intro s
  cases s with
  | mk r q => cases r <;> simp [stop_server]

end GodotAI
